import Mathlib

/-!
Verification of the sunbeam deployment orchestrator's planning and
automation core (sunbeam/commands/openstack.py and sunbeam/commands/juju.py),
shallowly embedded: pure planning functions become Lean functions, steps with
external collaborators become functions over explicit oracle inputs and
explicit state records, and the interactive pexpect-driven automata become
recursive drivers over a finite event script.
-/

namespace Sunbeam

/-- Modelled from the spec: the Outcome tag from `sunbeam.jobs.common.ResultType`
(the module is not part of the sources here); the spec gives exactly the three
kinds COMPLETED, FAILED, SKIPPED. -/
inductive ResultType where
  | completed
  | failed
  | skipped
deriving DecidableEq, Repr

/-- Modelled from the spec: `sunbeam.jobs.common.Result` (not part of the sources
here); the spec describes it as a kind plus an optional message. -/
structure Result where
  resultType : ResultType
  message : Option String := none
deriving DecidableEq, Repr

/-- Modelled from the spec: `RAM_32_GB_IN_KB` from `sunbeam.jobs.common` (not part
of the sources here); the spec calls it "a fixed 32GB-equivalent threshold" in kB. -/
def RAM_32_GB_IN_KB : Nat := 32 * 1024 * 1024

/-- Embedding of `determine_target_topology` (openstack.py). The clusterd queries
are replaced by the lists of node names returned for the control and compute
roles, and `get_host_total_ram()` by `hostTotalRam` (kB); `set(...)` becomes
`List.dedup` of the concatenated name lists. -/
def determine_target_topology (controlNodes computeNodes : List String)
    (hostTotalRam : Nat) : String :=
  let combined := (controlNodes ++ computeNodes).dedup
  if combined.length = 1 ∧ hostTotalRam < RAM_32_GB_IN_KB then "single"
  else if combined.length < 10 then "multi"
  else "large"

/-- Embedding of `compute_ha_scale` (openstack.py). -/
def compute_ha_scale (topology : String) (controlNodes : Int) : Int :=
  if topology = "single" ∨ controlNodes < 3 then 1 else 3

/-- Embedding of `compute_os_api_scale` (openstack.py); the `raise ValueError`
branch becomes the `Except.error` case. -/
def compute_os_api_scale (topology : String) (controlNodes : Int) :
    Except String Int :=
  if topology = "single" then .ok 1
  else if topology = "multi" ∨ controlNodes < 3 then .ok (min controlNodes 3)
  else if topology = "large" then .ok (min (controlNodes + 2) 7)
  else .error ("Unknown topology " ++ topology)

/-- Embedding of `compute_ingress_scale` (openstack.py). -/
def compute_ingress_scale (topology : String) (controlNodes : Int) : Int :=
  if topology = "single" then 1 else min controlNodes 3

/-- Embedding of `compute_ceph_replica_scale` (openstack.py). -/
def compute_ceph_replica_scale (osds : Int) : Int :=
  min osds 3

end Sunbeam

namespace Sunbeam

/-- C1: `compute_os_api_scale` follows the ordered cascade the spec gives:
`single` yields 1; then `multi` or fewer than 3 control nodes yields
`min(control_nodes, 3)`; then `large` yields `min(control_nodes + 2, 7)`; any
remaining topology value fails with an "Unknown topology" error rather than a
default; and the three quoted examples hold. -/
theorem c1_api_scale (topology : String) (controlNodes : Int) :
    (topology = "single" → compute_os_api_scale topology controlNodes = .ok 1) ∧
    (topology ≠ "single" → (topology = "multi" ∨ controlNodes < 3) →
      compute_os_api_scale topology controlNodes = .ok (min controlNodes 3)) ∧
    (topology = "large" → ¬ controlNodes < 3 →
      compute_os_api_scale topology controlNodes = .ok (min (controlNodes + 2) 7)) ∧
    (topology ≠ "single" → topology ≠ "multi" → topology ≠ "large" →
      ¬ controlNodes < 3 →
      compute_os_api_scale topology controlNodes =
        .error ("Unknown topology " ++ topology)) ∧
    compute_os_api_scale "large" 10 = .ok 7 ∧
    compute_os_api_scale "large" 3 = .ok 5 ∧
    compute_os_api_scale "multi" 2 = .ok 2 := by
  refine ⟨?_, ?_, ?_, ?_, by rfl, by rfl, by rfl⟩
  · intro h; simp [compute_os_api_scale, h]
  · intro h hm
    simp [compute_os_api_scale, h, hm]
  · intro h hn
    have hs : topology ≠ "single" := by rw [h]; decide
    have hm : topology ≠ "multi" := by rw [h]; decide
    simp [compute_os_api_scale, hs, hm, hn, h]
  · intro hs hm hl hn
    simp [compute_os_api_scale, hs, hm, hl, hn]

/-- Witness for C1 at topology "weird", 5 control nodes. -/
theorem c1_api_scale_witness :
    compute_os_api_scale "weird" 5 = .error "Unknown topology weird" :=
  (c1_api_scale "weird" 5).2.2.2.1 (by decide) (by decide) (by decide) (by decide)

end Sunbeam

namespace Sunbeam

/-- C4: `determine_target_topology` is exactly the three-rule cascade: one
combined node with host RAM (kB) below the fixed 32 GB threshold gives
"single"; otherwise fewer than 10 combined nodes gives "multi"; otherwise
"large"; together with the three quoted examples, stated on the count of
distinct combined node names. -/
theorem c4_target_topology (control compute : List String) (ram : Nat) :
    (((control ++ compute).dedup.length = 1 ∧ ram < RAM_32_GB_IN_KB) →
      determine_target_topology control compute ram = "single") ∧
    (¬ ((control ++ compute).dedup.length = 1 ∧ ram < RAM_32_GB_IN_KB) →
      (control ++ compute).dedup.length < 10 →
      determine_target_topology control compute ram = "multi") ∧
    (10 ≤ (control ++ compute).dedup.length →
      determine_target_topology control compute ram = "large") := by
  refine ⟨?_, ?_, ?_⟩
  · intro h
    simp [determine_target_topology, h]
  · intro h hlt
    simp [determine_target_topology, h, hlt]
  · intro h
    have h1 : ¬ ((control ++ compute).dedup.length = 1 ∧ ram < RAM_32_GB_IN_KB) := by
      rintro ⟨he, -⟩; omega
    have h2 : ¬ (control ++ compute).dedup.length < 10 := by omega
    simp [determine_target_topology, h1, h2]

/-- Witness for C4: one node with 16 GB RAM gives "single"; nine distinct
combined nodes give "multi"; twelve give "large". -/
theorem c4_target_topology_witness :
    determine_target_topology ["n1"] [] (16 * 1024 * 1024) = "single" ∧
    determine_target_topology ["n1", "n2", "n3"]
      ["n4", "n5", "n6", "n7", "n8", "n9"] (64 * 1024 * 1024) = "multi" ∧
    determine_target_topology ["n1", "n2", "n3"]
      ["n4", "n5", "n6", "n7", "n8", "n9", "n10", "n11", "n12"]
      (64 * 1024 * 1024) = "large" :=
  ⟨(c4_target_topology ["n1"] [] (16 * 1024 * 1024)).1 (by decide),
   (c4_target_topology ["n1", "n2", "n3"]
      ["n4", "n5", "n6", "n7", "n8", "n9"] (64 * 1024 * 1024)).2.1
      (by decide) (by decide),
   (c4_target_topology ["n1", "n2", "n3"]
      ["n4", "n5", "n6", "n7", "n8", "n9", "n10", "n11", "n12"]
      (64 * 1024 * 1024)).2.2 (by decide)⟩

/-- C10: combined nodes are counted as distinct names across the two roles: the
topology depends only on the deduplicated union of the role name lists, and six
nodes that each hold both the control and the compute role count as six, giving
"multi", not "large". -/
theorem c10_combined_distinct (names : List String) (ram : Nat)
    (hnodup : names.Nodup) (hlen : names.length = 6) :
    determine_target_topology names names ram = "multi" ∧
    determine_target_topology names names ram ≠ "large" := by
  have hcard : (names ++ names).dedup.length = 6 := by
    calc (names ++ names).dedup.length
        = (names ++ names).toFinset.card := (List.card_toFinset _).symm
      _ = names.toFinset.card := by
          rw [List.toFinset_append, Finset.union_self]
      _ = names.length := List.toFinset_card_of_nodup hnodup
      _ = 6 := hlen
  have hm : determine_target_topology names names ram = "multi" := by
    have h1 : ¬ ((names ++ names).dedup.length = 1 ∧ ram < RAM_32_GB_IN_KB) := by
      rintro ⟨h, -⟩; omega
    have h2 : (names ++ names).dedup.length < 10 := by omega
    simp [determine_target_topology, h1, h2]
  exact ⟨hm, by rw [hm]; decide⟩

/-- Witness for C10: six concrete dual-role nodes give "multi". -/
theorem c10_combined_distinct_witness :
    determine_target_topology ["n1", "n2", "n3", "n4", "n5", "n6"]
      ["n1", "n2", "n3", "n4", "n5", "n6"] (64 * 1024 * 1024) = "multi" :=
  (c10_combined_distinct ["n1", "n2", "n3", "n4", "n5", "n6"]
    (64 * 1024 * 1024) (by decide) (by decide)).1

end Sunbeam

namespace Sunbeam

/-- State of one `DeployControlPlaneStep` invocation (openstack.py): the step
fields set in `__init__` and mutated by `is_skip`, the clusterd facts the step
reads (node name lists per role, host RAM), the persisted `Topology` config
entry (`none` models `ConfigItemNotFoundException`), and oracle outcomes for
the external terraform apply and the `wait_until_active` call, plus the state
of the background status task. -/
structure DeployState where
  topology : String
  database : String
  force : Bool
  controlNodes : List String
  computeNodes : List String
  storageNodes : List String
  hostTotalRam : Nat
  store : Option (List (String × String))
  tfOutcome : Except String Unit
  waitOutcome : Except String Unit
  taskFinished : Bool
  taskSpawned : Bool := false
  taskCancelled : Bool := false

/-- The topology `is_skip` settles on: `auto` resolves to the detected one. -/
def computedTopology (st : DeployState) : String :=
  if st.topology = "auto" then
    determine_target_topology st.controlNodes st.computeNodes st.hostTotalRam
  else st.topology

/-- The database topology `is_skip` settles on: `auto` resolves to the persisted
value, defaulting to the detected topology, and `large` is normalized to
`multi` ("multi and large are the same"). -/
def computedDatabase (st : DeployState) : String :=
  let determined :=
    determine_target_topology st.controlNodes st.computeNodes st.hostTotalRam
  let database :=
    if st.database = "auto" then
      ((st.store.getD []).lookup "database").getD determined
    else st.database
  if database = "large" then "multi" else database

/-- The trailing compatibility check of `DeployControlPlaneStep.is_skip`. -/
def deployCompatCheck (force : Bool) (database topology : String) : Result :=
  if ¬ force ∧ database = "single" ∧ topology = "large" then
    ⟨ResultType.failed,
     some ("Cannot deploy control plane to large with single database,"
       ++ " use -f/--force to override")⟩
  else ⟨ResultType.completed, none⟩

/-- Embedding of `DeployControlPlaneStep.is_skip` (openstack.py): reads the
persisted config, resolves `auto` values, fails when a persisted (truthy)
database topology differs from the computed one, then runs the single/large
compatibility check. Only the step's own fields change; the store does not. -/
def DeployControlPlaneStep.is_skip (st : DeployState) : Result × DeployState :=
  let previous_config := st.store.getD []
  let st' :=
    { st with topology := computedTopology st, database := computedDatabase st }
  let r :=
    match previous_config.lookup "database" with
    | some db =>
      if db ≠ "" ∧ db ≠ st'.database then
        ⟨ResultType.failed,
         some "Database topology cannot be changed, please destroy and re-bootstrap"⟩
      else deployCompatCheck st'.force st'.database st'.topology
    | none => deployCompatCheck st'.force st'.database st'.topology
  (r, st')

/-- Embedding of `DeployControlPlaneStep.run` (openstack.py): persists the
selected topology/database via `update_config`, computes the scale tfvars
(where `compute_os_api_scale` may raise, modelled as `Except.error`), applies
terraform, spawns the background status task, waits for convergence, and in
the `finally` block cancels the task when it is not yet done; the result is
`Except.error` on the uncaught-exception path. -/
def DeployControlPlaneStep.run (st : DeployState) : Except String Result × DeployState :=
  let st := { st with
    store := some [("topology", st.topology), ("database", st.database)] }
  let _haScale := compute_ha_scale st.topology (st.controlNodes.length : Int)
  let _ingressScale := compute_ingress_scale st.topology (st.controlNodes.length : Int)
  match compute_os_api_scale st.topology (st.controlNodes.length : Int) with
  | .error e => (.error e, st)
  | .ok _ =>
    match st.tfOutcome with
    | .error e => (.ok ⟨ResultType.failed, some e⟩, st)
    | .ok _ =>
      let st := { st with taskSpawned := true }
      let stc := if st.taskFinished then st else { st with taskCancelled := true }
      match st.waitOutcome with
      | .error e => (.ok ⟨ResultType.failed, some e⟩, stc)
      | .ok _ => (.ok ⟨ResultType.completed, none⟩, stc)

/-- Modelled from the spec: the Plan Runner protocol of §4.3 applied to one
step (`run_plan` lives in `sunbeam.jobs.common`, which is not part of the
sources here): invoke the skip check first; on SKIPPED or FAILED record that
result and never invoke `run()`; on COMPLETED invoke `run()` (the step
declares no prompts). -/
def stepExecuteDeploy (st : DeployState) : Except String Result × DeployState :=
  let (r, st1) := DeployControlPlaneStep.is_skip st
  match r.resultType with
  | ResultType.completed => DeployControlPlaneStep.run st1
  | _ => (.ok r, st1)

/-- State of one `ReapplyOpenStackTerraformPlanStep` invocation (openstack.py). -/
structure ReapplyState where
  storageNodes : List String
  tfOutcome : Except String Unit
  waitOutcome : Except String Unit
  taskFinished : Bool
  taskSpawned : Bool := false
  taskCancelled : Bool := false

/-- Embedding of `ReapplyOpenStackTerraformPlanStep.run` (openstack.py):
terraform apply, background status task, convergence wait, and the `finally`
block cancelling the task when it is not yet done. -/
def ReapplyOpenStackTerraformPlanStep.run (st : ReapplyState) : Result × ReapplyState :=
  match st.tfOutcome with
  | .error e => (⟨ResultType.failed, some e⟩, st)
  | .ok _ =>
    let st := { st with taskSpawned := true }
    let stc := if st.taskFinished then st else { st with taskCancelled := true }
    match st.waitOutcome with
    | .error e => (⟨ResultType.failed, some e⟩, stc)
    | .ok _ => (⟨ResultType.completed, none⟩, stc)

end Sunbeam

namespace Sunbeam

/-- C2: with a persisted database topology "single" and a skip-check computing
"multi", `DeployControlPlaneStep.is_skip` returns FAILED with the message
naming the incompatibility and leaves the persisted config untouched, and the
plan-runner protocol then never reaches `run()`, so the persisted value is
still untouched after the whole step execution. -/
theorem c2_database_change_fails (st : DeployState)
    (hprev : (st.store.getD []).lookup "database" = some "single")
    (hdiff : computedDatabase st = "multi") :
    DeployControlPlaneStep.is_skip st =
      (⟨ResultType.failed,
        some "Database topology cannot be changed, please destroy and re-bootstrap"⟩,
       { st with topology := computedTopology st, database := computedDatabase st }) ∧
    (DeployControlPlaneStep.is_skip st).2.store = st.store ∧
    (stepExecuteDeploy st).2.store = st.store := by
  have hs : DeployControlPlaneStep.is_skip st =
      (⟨ResultType.failed,
        some "Database topology cannot be changed, please destroy and re-bootstrap"⟩,
       { st with topology := computedTopology st, database := computedDatabase st }) := by
    simp only [DeployControlPlaneStep.is_skip]
    rw [hprev]
    simp [hdiff]
  refine ⟨hs, by rw [hs], ?_⟩
  simp only [stepExecuteDeploy]
  rw [hs]

/-- Witness for C2: a concrete state with persisted database "single" and an
explicitly requested "multi" database. -/
theorem c2_database_change_fails_witness :
    (DeployControlPlaneStep.is_skip
      { topology := "multi", database := "multi", force := false,
        controlNodes := ["n1", "n2", "n3"], computeNodes := [],
        storageNodes := [], hostTotalRam := 64 * 1024 * 1024,
        store := some [("topology", "single"), ("database", "single")],
        tfOutcome := Except.ok (), waitOutcome := Except.ok (),
        taskFinished := false }).1 =
      ⟨ResultType.failed,
       some "Database topology cannot be changed, please destroy and re-bootstrap"⟩ := by
  rw [(c2_database_change_fails _ (by rfl) (by rfl)).1]

/-- C9: the skip-check normalizes a computed database topology "large" to
"multi" before comparing with the persisted value, so persisted "multi" with a
requested "large" database does not trip the database-topology-change failure:
the skip-check completes. -/
theorem c9_large_database_normalized (st : DeployState)
    (hprev : (st.store.getD []).lookup "database" = some "multi")
    (hdb : st.database = "large") :
    (DeployControlPlaneStep.is_skip st).1 = ⟨ResultType.completed, none⟩ := by
  have hcd : computedDatabase st = "multi" := by
    simp [computedDatabase, hdb]
  simp only [DeployControlPlaneStep.is_skip]
  rw [hprev]
  simp [hcd, deployCompatCheck]

/-- Witness for C9: a concrete state with persisted database "multi" and a
requested "large" database completes the skip-check. -/
theorem c9_large_database_normalized_witness :
    (DeployControlPlaneStep.is_skip
      { topology := "large", database := "large", force := false,
        controlNodes := ["n1", "n2", "n3"], computeNodes := [],
        storageNodes := [], hostTotalRam := 64 * 1024 * 1024,
        store := some [("topology", "large"), ("database", "multi")],
        tfOutcome := Except.ok (), waitOutcome := Except.ok (),
        taskFinished := false }).1 = ⟨ResultType.completed, none⟩ :=
  c9_large_database_normalized _ (by rfl) (by rfl)

/-- C8: after `DeployControlPlaneStep.run` or
`ReapplyOpenStackTerraformPlanStep.run` returns — by any path: uncaught
exception, terraform failure, convergence wait failure/timeout, or success —
no background status task is left running: when a task was spawned it is
either already done or has been cancelled. -/
theorem c8_background_task_cancelled (st : DeployState) (rst : ReapplyState)
    (hst : st.taskSpawned = false) (hrst : rst.taskSpawned = false) :
    ((DeployControlPlaneStep.run st).2.taskSpawned = true →
      (DeployControlPlaneStep.run st).2.taskFinished = true ∨
      (DeployControlPlaneStep.run st).2.taskCancelled = true) ∧
    ((ReapplyOpenStackTerraformPlanStep.run rst).2.taskSpawned = true →
      (ReapplyOpenStackTerraformPlanStep.run rst).2.taskFinished = true ∨
      (ReapplyOpenStackTerraformPlanStep.run rst).2.taskCancelled = true) := by
  constructor
  · simp only [DeployControlPlaneStep.run]
    rcases compute_os_api_scale st.topology (st.controlNodes.length : Int) with e | v
    · simp [hst]
    · rcases htf : st.tfOutcome with e | u
      · simp [hst]
      · rcases hw : st.waitOutcome with e | u <;>
          rcases hfin : st.taskFinished with _ | _ <;>
            simp [htf, hw, hfin]
  · simp only [ReapplyOpenStackTerraformPlanStep.run]
    rcases htf : rst.tfOutcome with e | u
    · simp [hrst]
    · rcases hw : rst.waitOutcome with e | u <;>
        rcases hfin : rst.taskFinished with _ | _ <;>
          simp [htf, hw, hfin]

/-- Witness for C8: a concrete deploy state whose wait times out and a concrete
reapply state that succeeds; in both the spawned task ends up cancelled or done. -/
theorem c8_background_task_cancelled_witness :
    ((DeployControlPlaneStep.run
      { topology := "multi", database := "multi", force := false,
        controlNodes := ["n1", "n2", "n3"], computeNodes := [],
        storageNodes := [], hostTotalRam := 64 * 1024 * 1024,
        store := some [("topology", "multi"), ("database", "multi")],
        tfOutcome := Except.ok (),
        waitOutcome := Except.error "timed out while waiting for model",
        taskFinished := false }).2.taskSpawned = true →
      (DeployControlPlaneStep.run
      { topology := "multi", database := "multi", force := false,
        controlNodes := ["n1", "n2", "n3"], computeNodes := [],
        storageNodes := [], hostTotalRam := 64 * 1024 * 1024,
        store := some [("topology", "multi"), ("database", "multi")],
        tfOutcome := Except.ok (),
        waitOutcome := Except.error "timed out while waiting for model",
        taskFinished := false }).2.taskFinished = true ∨
      (DeployControlPlaneStep.run
      { topology := "multi", database := "multi", force := false,
        controlNodes := ["n1", "n2", "n3"], computeNodes := [],
        storageNodes := [], hostTotalRam := 64 * 1024 * 1024,
        store := some [("topology", "multi"), ("database", "multi")],
        tfOutcome := Except.ok (),
        waitOutcome := Except.error "timed out while waiting for model",
        taskFinished := false }).2.taskCancelled = true) ∧
    ((ReapplyOpenStackTerraformPlanStep.run
      { storageNodes := [], tfOutcome := Except.ok (),
        waitOutcome := Except.ok (),
        taskFinished := false }).2.taskSpawned = true →
      (ReapplyOpenStackTerraformPlanStep.run
      { storageNodes := [], tfOutcome := Except.ok (),
        waitOutcome := Except.ok (),
        taskFinished := false }).2.taskFinished = true ∨
      (ReapplyOpenStackTerraformPlanStep.run
      { storageNodes := [], tfOutcome := Except.ok (),
        waitOutcome := Except.ok (),
        taskFinished := false }).2.taskCancelled = true) :=
  c8_background_task_cancelled _ _ (by rfl) (by rfl)

end Sunbeam

namespace Sunbeam

/-- The suffix of a character list starting at the first occurrence of `pat`,
scanning left to right: the embedding of Python's `"ERROR" in result` test
combined with `result[result.find("ERROR"):]`. -/
def suffixFromChars (pat : List Char) : List Char → Option (List Char)
  | [] => if pat <+: ([] : List Char) then some [] else none
  | c :: rest =>
    if pat <+: (c :: rest) then some (c :: rest) else suffixFromChars pat rest

/-- String version of `suffixFromChars`. -/
def suffixFrom (s pat : String) : Option String :=
  (suffixFromChars pat.data s.data).map String.mk

theorem suffixFromChars_eq_some (pat : List Char) (s suf : List Char)
    (h : suffixFromChars pat s = some suf) :
    pat <+: suf ∧ ∃ pre, s = pre ++ suf ∧
      ∀ pre' suf', s = pre' ++ suf' → pat <+: suf' → pre.length ≤ pre'.length := by
  induction s generalizing suf with
  | nil =>
    by_cases hp : pat <+: ([] : List Char)
    · rw [suffixFromChars, if_pos hp] at h
      obtain rfl : ([] : List Char) = suf := Option.some.inj h
      refine ⟨hp, [], rfl, ?_⟩
      intro pre' suf' _ _
      exact Nat.zero_le _
    · rw [suffixFromChars, if_neg hp] at h
      exact absurd h (by simp)
  | cons c rest ih =>
    by_cases hp : pat <+: (c :: rest)
    · rw [suffixFromChars, if_pos hp] at h
      obtain rfl : c :: rest = suf := Option.some.inj h
      refine ⟨hp, [], rfl, ?_⟩
      intro pre' suf' _ _
      exact Nat.zero_le _
    · rw [suffixFromChars, if_neg hp] at h
      obtain ⟨hpre, pre, hsplit, hmin⟩ := ih suf h
      refine ⟨hpre, c :: pre, by rw [hsplit]; rfl, ?_⟩
      intro pre' suf' hsplit' hpref'
      cases pre' with
      | nil =>
        exact absurd (hsplit' ▸ hpref') hp
      | cons d pre'' =>
        have hd : c = d ∧ rest = pre'' ++ suf' := by
          have := List.cons.inj hsplit'
          exact ⟨this.1, this.2⟩
        have := hmin pre'' suf' hd.2 hpref'
        simpa using Nat.succ_le_succ this

theorem suffixFromChars_eq_none (pat : List Char) (s : List Char)
    (h : suffixFromChars pat s = none) :
    ∀ pre suf, s = pre ++ suf → ¬ pat <+: suf := by
  induction s with
  | nil =>
    intro pre suf hsplit
    have hnil := List.append_eq_nil.mp hsplit.symm
    rw [hnil.2]
    intro hp
    rw [suffixFromChars, if_pos hp] at h
    exact absurd h (by simp)
  | cons c rest ih =>
    intro pre suf hsplit
    by_cases hp : pat <+: (c :: rest)
    · rw [suffixFromChars, if_pos hp] at h
      exact absurd h (by simp)
    · rw [suffixFromChars, if_neg hp] at h
      cases pre with
      | nil =>
        have hsuf : suf = c :: rest := by simpa using hsplit.symm
        rw [hsuf]
        exact hp
      | cons d pre'' =>
        have hd : rest = pre'' ++ suf := (List.cons.inj hsplit).2
        exact ih h pre'' suf hd

end Sunbeam

namespace Sunbeam

/-- One observable event of a `pexpect` session of `RegisterJujuUserStep.run`
(juju.py): either `child.expect` matched entry `index` of the expect list
`[new password, confirm password, controller name, please enter password, EOF]`
with `before` the text read up to the match, or it raised `pexpect.TIMEOUT`
carrying the exception text. -/
inductive RegEvent where
  | matched (index : Fin 5) (before : String)
  | timedOut (msg : String)

/-- Outcome of driving an automaton over a script: the returned result if the
drive terminated (`none` models a script exhausted while `child.expect` would
still block), the bytes mirrored to the audit log file (`child.logfile_read`),
and the lines sent to the process (`child.sendline`). -/
structure DriveOutcome where
  result : Option Result
  logText : String
  sentLines : List String

/-- Embedding of the expect/respond loop of `RegisterJujuUserStep.run`
(juju.py): indices 0, 1 and 3 send the account password, index 2 sends the
controller name, index 4 (EOF) checks the buffered `child.before` text for
"ERROR" and returns FAILED from its first occurrence onward, else breaks out
and the step returns COMPLETED; a `pexpect.TIMEOUT` returns FAILED with the
exception text. All text read from the process is appended to `logText`; sent
lines go only to `sentLines`, since only `logfile_read` is attached. -/
def registerLoop (password controller : String) :
    List RegEvent → String → List String → DriveOutcome
  | [], logText, sentLines => ⟨none, logText, sentLines⟩
  | .timedOut msg :: _, logText, sentLines =>
    ⟨some ⟨ResultType.failed, some msg⟩, logText, sentLines⟩
  | .matched i before :: rest, logText, sentLines =>
    let logText := logText ++ before
    if i.val = 0 ∨ i.val = 1 ∨ i.val = 3 then
      registerLoop password controller rest logText (sentLines ++ [password])
    else if i.val = 2 then
      registerLoop password controller rest logText (sentLines ++ [controller])
    else
      match suffixFrom before "ERROR" with
      | some suf => ⟨some ⟨ResultType.failed, some suf⟩, logText, sentLines⟩
      | none => ⟨some ⟨ResultType.completed, none⟩, logText, sentLines⟩

/-- Embedding of `RegisterJujuUserStep.run` (juju.py): a falsy registration
token fails immediately, otherwise the expect/respond loop is driven with a
fresh log file and nothing yet sent. -/
def RegisterJujuUserStep.run (registrationToken : Option String)
    (password controller : String) (events : List RegEvent) : DriveOutcome :=
  if registrationToken.getD "" = "" then
    ⟨some ⟨ResultType.failed, some "No registration token found in Cluster database"⟩,
     "", []⟩
  else registerLoop password controller events "" []

/-- The process output the register loop reads from a script: the before-texts
of the matched events up to and including the first terminal event. Defined
only from the script, so it mentions neither the password nor the controller;
used to state what the audit log contains. -/
def consumedOutput : List RegEvent → String
  | [] => ""
  | .timedOut _ :: _ => ""
  | .matched i before :: rest =>
    if i.val = 4 then before else before ++ consumedOutput rest

/-- One observable event of the `pexpect` session of `AddJujuMachineStep.run`
(juju.py): expect list `[authenticity prompt, EOF]`, or `pexpect.TIMEOUT`. -/
inductive AddMachineEvent where
  | matched (index : Fin 2) (before : String)
  | timedOut

/-- How the add-machine expect loop ended: with an early `return`, by `break`
(EOF without "ERROR"), or still pending input when the script ran out. -/
inductive LoopExit where
  | returned (r : Result)
  | broke
  | pending

/-- Outcome of the add-machine expect loop. -/
structure AddMachineDrive where
  exit : LoopExit
  logText : String
  sentLines : List String

/-- Embedding of the expect/respond loop of `AddJujuMachineStep.run` (juju.py):
index 0 (host authenticity prompt) sends "yes", index 1 (EOF) checks
`child.before` for "ERROR" and returns FAILED from its first occurrence
onward, else breaks; `pexpect.TIMEOUT` returns FAILED with the fixed message
"TIMED OUT to add machine". -/
def addMachineLoop : List AddMachineEvent → String → List String → AddMachineDrive
  | [], logText, sentLines => ⟨.pending, logText, sentLines⟩
  | .timedOut :: _, logText, sentLines =>
    ⟨.returned ⟨ResultType.failed, some "TIMED OUT to add machine"⟩, logText, sentLines⟩
  | .matched i before :: rest, logText, sentLines =>
    let logText := logText ++ before
    if i.val = 0 then addMachineLoop rest logText (sentLines ++ ["yes"])
    else
      match suffixFrom before "ERROR" with
      | some suf => ⟨.returned ⟨ResultType.failed, some suf⟩, logText, sentLines⟩
      | none => ⟨.broke, logText, sentLines⟩

/-- Embedding of `AddJujuMachineStep.run` (juju.py): drive the loop; after a
clean break, list the machines (`machinesQuery`; its `CalledProcessError`
would propagate uncaught, modelled as `Except.error`) and return COMPLETED
with the machine id holding the IP, or COMPLETED "-1" when none does. -/
def AddJujuMachineStep.run (machineIp : String) (events : List AddMachineEvent)
    (machinesQuery : Except String (List (String × List String))) :
    Except String (Option Result) :=
  let d := addMachineLoop events "" []
  match d.exit with
  | .returned r => .ok (some r)
  | .pending => .ok none
  | .broke =>
    match machinesQuery with
    | .error e => .error e
    | .ok machines =>
      match machines.find? (fun m => m.2.contains machineIp) with
      | some m => .ok (some ⟨ResultType.completed, some m.1⟩)
      | none => .ok (some ⟨ResultType.completed, some "-1"⟩)

/-- Embedding of `CreateJujuUserStep.is_skip` (juju.py): `juju list-users`
either fails (`CalledProcessError`, converted to FAILED with its text) or
yields the `user-name` fields; an existing name means SKIPPED. -/
def CreateJujuUserStep.is_skip (username : String)
    (usersQuery : Except String (List (Option String))) : Result :=
  match usersQuery with
  | .error e => ⟨ResultType.failed, some e⟩
  | .ok userNames =>
    if some username ∈ userNames then ⟨ResultType.skipped, none⟩
    else ⟨ResultType.completed, none⟩

/-- Embedding of `AddJujuMachineStep.is_skip` (juju.py): `juju machines` either
fails (`CalledProcessError`, converted to FAILED with its text) or yields
machines as (id, ip-addresses) pairs in listing order; a machine holding the
IP means SKIPPED with that machine id. -/
def AddJujuMachineStep.is_skip (machineIp : String)
    (machinesQuery : Except String (List (String × List String))) : Result :=
  match machinesQuery with
  | .error e => ⟨ResultType.failed, some e⟩
  | .ok machines =>
    match machines.find? (fun m => m.2.contains machineIp) with
    | some m => ⟨ResultType.skipped, some m.1⟩
    | none => ⟨ResultType.completed, none⟩

end Sunbeam

namespace Sunbeam

theorem registerLoop_logText_eq (pw ctl : String) :
    ∀ (events : List RegEvent) (log0 : String) (sent0 : List String),
      (registerLoop pw ctl events log0 sent0).logText =
        log0 ++ consumedOutput events := by
  intro events
  induction events with
  | nil =>
    intro log0 sent0
    simp [registerLoop, consumedOutput]
  | cons e rest ih =>
    intro log0 sent0
    cases e with
    | timedOut msg => simp [registerLoop, consumedOutput]
    | matched i before =>
      have hlt := i.isLt
      by_cases h1 : i.val = 0 ∨ i.val = 1 ∨ i.val = 3
      · have h4 : ¬ i.val = 4 := by omega
        simp [registerLoop, consumedOutput, h1, h4, ih, String.append_assoc]
      · by_cases h2 : i.val = 2
        · have h4 : ¬ i.val = 4 := by omega
          simp [registerLoop, consumedOutput, h1, h2, h4, ih, String.append_assoc]
        · have h4 : i.val = 4 := by omega
          cases hsf : suffixFrom before "ERROR" <;>
            simp [registerLoop, consumedOutput, h1, h2, h4, hsf]

/-- C6: the audit log of a register-user automaton session consists exactly of
the bytes read from the process, and nothing sent to it: the log is the same
for any two sessions over the same script that differ only in the password
sent, both for the raw loop and for the whole `run`; and the log is exactly
the script's consumed output, a value defined without reference to the
password. -/
theorem c6_sent_secrets_not_logged (events : List RegEvent)
    (registrationToken : Option String) (ctl pw1 pw2 : String) :
    (registerLoop pw1 ctl events "" []).logText =
      (registerLoop pw2 ctl events "" []).logText ∧
    (∀ pw, (registerLoop pw ctl events "" []).logText = consumedOutput events) ∧
    (RegisterJujuUserStep.run registrationToken pw1 ctl events).logText =
      (RegisterJujuUserStep.run registrationToken pw2 ctl events).logText := by
  have h : ∀ pw, (registerLoop pw ctl events "" []).logText = consumedOutput events := by
    intro pw
    rw [registerLoop_logText_eq]
    simp
  refine ⟨by rw [h pw1, h pw2], h, ?_⟩
  unfold RegisterJujuUserStep.run
  by_cases ht : registrationToken.getD "" = ""
  · simp [ht]
  · simp [ht, h pw1, h pw2]

/-- C3: on an end-of-stream match, the register automaton inspects the buffered
text for the literal "ERROR": when present it returns FAILED whose message is
exactly the buffered text from the first occurrence of "ERROR" onward (an
"ERROR"-prefixed suffix whose cut point is minimal), and when absent it
returns COMPLETED. -/
theorem c3_eof_error_inspection (pw ctl log0 before : String)
    (rest : List RegEvent) (sent0 : List String) :
    (∀ suf, suffixFrom before "ERROR" = some suf →
      (registerLoop pw ctl
        (RegEvent.matched ⟨4, by omega⟩ before :: rest) log0 sent0).result
        = some ⟨ResultType.failed, some suf⟩ ∧
      "ERROR".data <+: suf.data ∧
      ∃ pre, before.data = pre ++ suf.data ∧
        ∀ pre' suf', before.data = pre' ++ suf' → "ERROR".data <+: suf' →
          pre.length ≤ pre'.length) ∧
    (suffixFrom before "ERROR" = none →
      (registerLoop pw ctl
        (RegEvent.matched ⟨4, by omega⟩ before :: rest) log0 sent0).result
        = some ⟨ResultType.completed, none⟩ ∧
      ∀ pre suf, before.data = pre ++ suf → ¬ "ERROR".data <+: suf) := by
  constructor
  · intro suf hsf
    have hloop : (registerLoop pw ctl
        (RegEvent.matched ⟨4, by omega⟩ before :: rest) log0 sent0).result
        = some ⟨ResultType.failed, some suf⟩ := by
      simp [registerLoop, hsf]
    refine ⟨hloop, ?_⟩
    unfold suffixFrom at hsf
    obtain ⟨l, hl, hmk⟩ := Option.map_eq_some'.mp hsf
    have hdata : suf.data = l := by rw [← hmk]
    obtain ⟨hpre, pre, hsplit, hmin⟩ :=
      suffixFromChars_eq_some "ERROR".data before.data l hl
    rw [hdata]
    exact ⟨hpre, pre, hsplit, hmin⟩
  · intro hsf
    have hloop : (registerLoop pw ctl
        (RegEvent.matched ⟨4, by omega⟩ before :: rest) log0 sent0).result
        = some ⟨ResultType.completed, none⟩ := by
      simp [registerLoop, hsf]
    refine ⟨hloop, ?_⟩
    unfold suffixFrom at hsf
    have hchars : suffixFromChars "ERROR".data before.data = none :=
      Option.map_eq_none'.mp hsf
    exact suffixFromChars_eq_none "ERROR".data before.data hchars

/-- Witness for C3: the spec's scenario — after the password prompt was
answered, the stream ends with buffered text containing "ERROR: bad token";
the drive returns FAILED with the message starting at "ERROR". -/
theorem c3_eof_error_inspection_witness :
    (registerLoop "s3cret" "mycontroller"
      [RegEvent.matched ⟨4, by omega⟩ "registration output ERROR: bad token"]
      "Enter a new password" ["s3cret"]).result
      = some ⟨ResultType.failed, some "ERROR: bad token"⟩ :=
  ((c3_eof_error_inspection "s3cret" "mycontroller" "Enter a new password"
      "registration output ERROR: bad token" [] ["s3cret"]).1
    "ERROR: bad token" (by rfl)).1

/-- C5: when the read-only skip-check query to the external juju binary fails
(`CalledProcessError`), both `CreateJujuUserStep.is_skip` and
`AddJujuMachineStep.is_skip` return FAILED carrying the error text — never
SKIPPED and never COMPLETED. -/
theorem c5_skip_check_fails_closed (username machineIp e : String) :
    CreateJujuUserStep.is_skip username (.error e) =
      ⟨ResultType.failed, some e⟩ ∧
    AddJujuMachineStep.is_skip machineIp (.error e) =
      ⟨ResultType.failed, some e⟩ ∧
    (CreateJujuUserStep.is_skip username (.error e)).resultType ≠
      ResultType.skipped ∧
    (CreateJujuUserStep.is_skip username (.error e)).resultType ≠
      ResultType.completed ∧
    (AddJujuMachineStep.is_skip machineIp (.error e)).resultType ≠
      ResultType.skipped ∧
    (AddJujuMachineStep.is_skip machineIp (.error e)).resultType ≠
      ResultType.completed :=
  ⟨rfl, rfl, fun h => ResultType.noConfusion h, fun h => ResultType.noConfusion h,
   fun h => ResultType.noConfusion h, fun h => ResultType.noConfusion h⟩

/-- C7: a `pexpect` timeout makes the automata return FAILED — never COMPLETED
or SKIPPED: the add-machine drive returns FAILED with the fixed
timeout-specific message "TIMED OUT to add machine", the register drive
returns FAILED with the timeout exception text, and the timeout message is
distinct from every message the end-of-stream "ERROR"-marker failure path can
produce (those all start with "ERROR"). -/
theorem c7_timeout_failed_distinct (rest : List AddMachineEvent)
    (logText : String) (sent : List String) (machineIp : String)
    (machinesQuery : Except String (List (String × List String)))
    (msg : String) (rrest : List RegEvent) (pw ctl rlog : String)
    (rsent : List String) :
    addMachineLoop (AddMachineEvent.timedOut :: rest) logText sent =
      ⟨LoopExit.returned ⟨ResultType.failed, some "TIMED OUT to add machine"⟩,
       logText, sent⟩ ∧
    AddJujuMachineStep.run machineIp (AddMachineEvent.timedOut :: rest)
      machinesQuery =
      .ok (some ⟨ResultType.failed, some "TIMED OUT to add machine"⟩) ∧
    (registerLoop pw ctl (RegEvent.timedOut msg :: rrest) rlog rsent).result =
      some ⟨ResultType.failed, some msg⟩ ∧
    (∀ before suf, suffixFrom before "ERROR" = some suf →
      suf ≠ "TIMED OUT to add machine") := by
  refine ⟨rfl, rfl, rfl, ?_⟩
  intro before suf hsf hcontra
  unfold suffixFrom at hsf
  obtain ⟨l, hl, hmk⟩ := Option.map_eq_some'.mp hsf
  have hdata : suf.data = l := by rw [← hmk]
  have hpre := (suffixFromChars_eq_some "ERROR".data before.data l hl).1
  rw [← hdata, hcontra] at hpre
  exact absurd hpre (by decide)

/-- Witness for C7: a drive that times out immediately returns the fixed
timeout message, and the concrete error-path message "ERROR: bad token" is not
that timeout message. -/
theorem c7_timeout_failed_distinct_witness :
    AddJujuMachineStep.run "10.0.0.1" [AddMachineEvent.timedOut] (.ok []) =
      .ok (some ⟨ResultType.failed, some "TIMED OUT to add machine"⟩) ∧
    "ERROR: bad token" ≠ "TIMED OUT to add machine" :=
  ⟨(c7_timeout_failed_distinct [] "" [] "10.0.0.1" (.ok []) "m" [] "p" "c" ""
      []).2.1,
   (c7_timeout_failed_distinct [] "" [] "10.0.0.1" (.ok []) "m" [] "p" "c" ""
      []).2.2.2 "ERROR: bad token" "ERROR: bad token" (by rfl)⟩

end Sunbeam
